import Mathlib

/-!
Shallow embedding of the reconciliation core of the jira-reminder-bot
repository (src/app.py and src/jiratasks.py, which implement the same
cycle; src/state_manager.py; src/clients/telegram.py; src/utils/helpers.py).

An issue carries a unique string key and an optional summary
(`issue["fields"].get("summary", "No summary")`).  The persisted
Notified-Set is a Python set of strings, modelled as `Finset String`.

`JiraMonitor.check` is modelled as a pure function of the prior in-memory
set and of the environment of one cycle: the fetch outcome (the
`search_issues` call either raises or returns a list), the current local
hour (read by `is_work_hours` inside the notifier), and whether the
outbound Telegram HTTP post would succeed (`httpOk`; the post raises via
`raise_for_status` when it fails).  The result records the in-memory set
after the cycle, the successive `save_state` payloads written during the
cycle, and the batch passed to `notifier.send` (if the notifier was
invoked at all).  Exceptions from fetch or send are caught by the
top-level `try/except` of `check`, which simply logs and returns, so a
raise inside the body truncates the cycle at the raising statement.
-/

/-- An external Jira issue: a unique key plus an optional summary field. -/
structure Issue where
  key : String
  summary : Option String
deriving DecidableEq, Repr

/-- Outcome of `JiraClient.search_issues`: the HTTP call either raises
(`raise_for_status` / transport error) or returns the issue list. -/
inductive FetchResult where
  | failed
  | ok (issues : List Issue)
deriving DecidableEq, Repr

/-- `is_work_hours` from src/utils/helpers.py: `8 <= now.hour < 20`,
with `now.hour` the local hour in the configured time zone. -/
def is_work_hours (hour : Nat) : Bool :=
  decide (8 ≤ hour ∧ hour < 20)

/-- Observable outcome of `TelegramNotifier.send`:
`noIssues` — the empty-batch early return (no HTTP call, returns normally);
`skippedOffHours` — the work-hours gate early return (no HTTP call,
returns normally); `delivered` — the HTTP post happened and succeeded;
`failed` — the HTTP post happened and `raise_for_status` raised. -/
inductive SendResult where
  | noIssues
  | skippedOffHours
  | delivered
  | failed
deriving DecidableEq, Repr

/-- The message body built by `TelegramNotifier.send` before posting:
a header followed by one bullet per issue with key, summary (defaulting
to "No summary") and a browse link. -/
def buildMessage (jiraUrl : String) (issues : List Issue) : String :=
  issues.foldl
    (fun m i =>
      m ++ "• " ++ i.key ++ ": " ++ (i.summary.getD "No summary") ++ "\n"
        ++ jiraUrl ++ "/browse/" ++ i.key ++ "\n\n")
    "⚠️ Jira tasks need updating:\n\n"

/-- `TelegramNotifier.send` from src/clients/telegram.py: return at once
on an empty batch; return at once when outside work hours; otherwise post
the message, raising iff the HTTP call fails. -/
def TelegramNotifier.send (issues : List Issue) (hour : Nat) (httpOk : Bool) :
    SendResult :=
  if issues = [] then
    .noIssues
  else if !(is_work_hours hour) then
    .skippedOffHours
  else if httpOk then
    .delivered
  else
    .failed

/-- What one `JiraMonitor.check` cycle did: the in-memory notified set
when the cycle ends, the successive `save_state` payloads written during
the cycle (in order), and the issue list passed to `notifier.send`
(`none` when the notifier was never invoked). -/
structure CycleResult where
  notified : Finset String
  writes : List (Finset String)
  batch : Option (List Issue)
deriving DecidableEq

/-- `JiraMonitor.check` from src/app.py (identical logic in
src/jiratasks.py).  The body runs under `try/except Exception`:
a raising fetch ends the cycle immediately; an empty result clears and
persists; otherwise the new issues (keys not yet notified) are computed,
and if any exist the notifier is invoked — if the send raises, the
exception propagates to the top-level handler and the remaining
statements (adding keys, both saves, the intersection) never run;
if the send returns normally the new keys are added and saved, and then,
in every non-raising path, the set is intersected with the current keys
and saved again. -/
def JiraMonitor.check (notified : Finset String) (fetch : FetchResult)
    (hour : Nat) (httpOk : Bool) : CycleResult :=
  match fetch with
  | .failed => ⟨notified, [], none⟩
  | .ok issues =>
    if issues = [] then
      ⟨∅, [∅], none⟩
    else
      let currentKeys := (issues.map Issue.key).toFinset
      let newIssues := issues.filter (fun i => decide (i.key ∉ notified))
      if newIssues = [] then
        ⟨notified ∩ currentKeys, [notified ∩ currentKeys], none⟩
      else
        match TelegramNotifier.send newIssues hour httpOk with
        | .failed => ⟨notified, [], some newIssues⟩
        | _ =>
          let added := notified ∪ (newIssues.map Issue.key).toFinset
          ⟨added ∩ currentKeys, [added, added ∩ currentKeys], some newIssues⟩

/-- One exception-free cycle viewed as a state transformer, fed with the
hour and the fetched list of that cycle (`httpOk = true`: the Telegram
post, if reached, succeeds). -/
def runCycle (prior : Finset String) (c : Nat × List Issue) : Finset String :=
  (JiraMonitor.check prior (.ok c.2) c.1 true).notified

/-- The batch handed to the notifier in one exception-free cycle
(`[]` when the notifier is not invoked). -/
def batchOf (prior : Finset String) (c : Nat × List Issue) : List Issue :=
  ((JiraMonitor.check prior (.ok c.2) c.1 true).batch).getD []

/-- The successive notify batches of a sequence of exception-free cycles,
each cycle given by its local hour and its fetched issue list. -/
def cycleBatches (init : Finset String) :
    List (Nat × List Issue) → List (List Issue)
  | [] => []
  | c :: rest => batchOf init c :: cycleBatches (runCycle init c) rest

/-- What `load_state` in src/state_manager.py sees: the state file is
missing, or opening/parsing it raises, or it parses to an array of
strings. -/
inductive FileRead where
  | missing
  | unreadable
  | content (l : List String)
deriving DecidableEq, Repr

/-- `load_state` from src/state_manager.py: `set(json.load(f))` on a
readable file, the empty set when the file is missing or any exception
occurs while reading or parsing. -/
def load_state : FileRead → Finset String
  | .missing => ∅
  | .unreadable => ∅
  | .content l => l.toFinset

/-- `save_state` from src/state_manager.py: `json.dump(list(state), f)` —
the serialized array holds the elements of the set, each exactly once, in
some order (Python set iteration order is unspecified; here modelled by
the lexicographic enumeration of the set). -/
def save_state (s : Finset String) : List String :=
  s.sort (· ≤ ·)

/-! ### Helper lemmas -/

/-- With a succeeding HTTP transport the notifier never raises. -/
lemma send_true_ne_failed (issues : List Issue) (hour : Nat) :
    TelegramNotifier.send issues hour true ≠ SendResult.failed := by
  unfold TelegramNotifier.send
  split
  · simp
  · split <;> simp

/-- The batch handed to the notifier by a cycle with a successful fetch is
always exactly the fetched issues whose key is not yet notified (reading
an uninvoked notifier as the empty batch). -/
lemma check_batch_getD (prior : Finset String) (issues : List Issue)
    (hour : Nat) (httpOk : Bool) :
    ((JiraMonitor.check prior (.ok issues) hour httpOk).batch).getD []
      = issues.filter (fun i => decide (i.key ∉ prior)) := by
  simp only [JiraMonitor.check]
  by_cases he : issues = []
  · subst he; simp
  · rw [if_neg he]
    by_cases hn : issues.filter (fun i => decide (i.key ∉ prior)) = []
    · simp only [hn, if_pos rfl]
      rfl
    · simp only [if_neg hn]
      cases TelegramNotifier.send (issues.filter (fun i => decide (i.key ∉ prior))) hour httpOk <;> rfl

/-- After a successful non-empty fetch with a non-raising send, the
in-memory set equals the current keys and the last write persists it. -/
lemma check_ok_true_spec (prior : Finset String) (issues : List Issue)
    (hour : Nat) (h : issues ≠ []) :
    (JiraMonitor.check prior (.ok issues) hour true).notified
        = (issues.map Issue.key).toFinset ∧
    ((JiraMonitor.check prior (.ok issues) hour true).writes).getLast?
        = some ((issues.map Issue.key).toFinset) := by
  simp only [JiraMonitor.check]
  rw [if_neg h]
  by_cases hn : issues.filter (fun i => decide (i.key ∉ prior)) = []
  · simp only [hn, if_pos rfl]
    have hsub : (issues.map Issue.key).toFinset ⊆ prior := by
      intro x hx
      simp only [List.mem_toFinset, List.mem_map] at hx
      obtain ⟨i, hi, rfl⟩ := hx
      by_contra hxp
      have hmem : i ∈ issues.filter (fun i => decide (i.key ∉ prior)) := by
        simp [List.mem_filter, hi, hxp]
      rw [hn] at hmem
      exact absurd hmem (List.not_mem_nil i)
    have heq : prior ∩ (issues.map Issue.key).toFinset
        = (issues.map Issue.key).toFinset := Finset.inter_eq_right.mpr hsub
    exact ⟨heq, congrArg some heq⟩
  · simp only [if_neg hn]
    have hsub : (issues.map Issue.key).toFinset
        ⊆ prior ∪ ((issues.filter
            (fun i => decide (i.key ∉ prior))).map Issue.key).toFinset := by
      intro x hx
      simp only [List.mem_toFinset, List.mem_map] at hx
      obtain ⟨i, hi, rfl⟩ := hx
      by_cases hxp : i.key ∈ prior
      · exact Finset.mem_union_left _ hxp
      · refine Finset.mem_union_right _ ?_
        simp only [List.mem_toFinset, List.mem_map]
        exact ⟨i, by simp [List.mem_filter, hi, hxp], rfl⟩
    have heq : (prior ∪ ((issues.filter
          (fun i => decide (i.key ∉ prior))).map Issue.key).toFinset)
        ∩ (issues.map Issue.key).toFinset
        = (issues.map Issue.key).toFinset := Finset.inter_eq_right.mpr hsub
    cases hsend : TelegramNotifier.send
        (issues.filter (fun i => decide (i.key ∉ prior))) hour true with
    | failed => exact absurd hsend (send_true_ne_failed _ _)
    | noIssues => exact ⟨heq, congrArg some heq⟩
    | skippedOffHours => exact ⟨heq, congrArg some heq⟩
    | delivered => exact ⟨heq, congrArg some heq⟩

/-- When every fetched key is already notified, the cycle takes the
no-new-issues branch: prune-only result, notifier not invoked. -/
lemma check_no_new (prior : Finset String) (issues : List Issue)
    (hour : Nat) (httpOk : Bool) (h : issues ≠ [])
    (hall : ∀ i ∈ issues, i.key ∈ prior) :
    (JiraMonitor.check prior (.ok issues) hour httpOk).notified
        = prior ∩ (issues.map Issue.key).toFinset ∧
    (JiraMonitor.check prior (.ok issues) hour httpOk).batch = none := by
  have hn : issues.filter (fun i => decide (i.key ∉ prior)) = [] := by
    rw [List.filter_eq_nil_iff]
    intro i hi
    simp [hall i hi]
  simp only [JiraMonitor.check]
  rw [if_neg h]
  simp only [hn, if_pos rfl]
  exact ⟨rfl, rfl⟩

/-- Everything in a cycle batch comes from the fetched list and was not
yet notified. -/
lemma batch_key_not_notified (prior : Finset String) (c : Nat × List Issue)
    (i : Issue) (hi : i ∈ batchOf prior c) : i ∈ c.2 ∧ i.key ∉ prior := by
  rw [batchOf, check_batch_getD, List.mem_filter] at hi
  exact ⟨hi.1, by simpa using hi.2⟩

/-- A non-empty exception-free cycle rewrites the state to the current
keys. -/
lemma runCycle_eq_keys (prior : Finset String) (c : Nat × List Issue)
    (h : c.2 ≠ []) : runCycle prior c = (c.2.map Issue.key).toFinset :=
  (check_ok_true_spec prior c.2 c.1 h).1

/-- Once a key is in the state and stays in every fetched list, it never
reappears in any later notify batch. -/
lemma cycleBatches_avoid (k : String) (rest : List (Nat × List Issue)) :
    ∀ st : Finset String, k ∈ st → (∀ c ∈ rest, k ∈ c.2.map Issue.key) →
      ∀ b ∈ cycleBatches st rest, ∀ i ∈ b, i.key ≠ k := by
  induction rest with
  | nil =>
    intro st _ _ b hb
    simp [cycleBatches] at hb
  | cons c rest ih =>
    intro st hst hall b hb i hi
    rw [cycleBatches] at hb
    rcases List.mem_cons.mp hb with hb | hb
    · subst hb
      intro hk
      have h2 := (batch_key_not_notified st c i hi).2
      rw [hk] at h2
      exact h2 hst
    · have hkc : k ∈ c.2.map Issue.key := hall c (List.mem_cons_self c rest)
      have hne : c.2 ≠ [] := by
        intro he
        rw [he] at hkc
        simp at hkc
      have hst2 : k ∈ runCycle st c := by
        rw [runCycle_eq_keys st c hne]
        exact List.mem_toFinset.mpr hkc
      exact ih (runCycle st c) hst2
        (fun d hd => hall d (List.mem_cons_of_mem c hd)) b hb i hi

/-! ### Claims -/

/-- C1 (counterexample): with prior Notified-Set {"B-9"}, fetched list
[A-1], work hours, and a failing Telegram post, `JiraMonitor.check`
completes (the exception is caught) yet the stale key "B-9" survives in
the Notified-Set although it is absent from the current keys — refuting
the unconditional subset claim. -/
theorem stale_key_survives_send_failure :
    "B-9" ∈ (JiraMonitor.check {"B-9"} (.ok [⟨"A-1", none⟩]) 12 false).notified ∧
    "B-9" ∉ (([⟨"A-1", none⟩] : List Issue).map Issue.key).toFinset := by
  decide

/-- C1 (amended): provided the Telegram post succeeds whenever attempted
(so the send never raises), after a cycle on any successfully fetched
list the Notified-Set is a subset of the current keys, and the last
persisted write equals that final set. -/
theorem check_notified_subset_current (prior : Finset String)
    (issues : List Issue) (hour : Nat) :
    (JiraMonitor.check prior (.ok issues) hour true).notified
        ⊆ (issues.map Issue.key).toFinset ∧
    ((JiraMonitor.check prior (.ok issues) hour true).writes).getLast?
        = some ((JiraMonitor.check prior (.ok issues) hour true).notified) := by
  by_cases h : issues = []
  · subst h
    exact ⟨Finset.empty_subset _, rfl⟩
  · obtain ⟨ha, hb⟩ := check_ok_true_spec prior issues hour h
    refine ⟨?_, ?_⟩
    · rw [ha]
    · rw [ha, hb]

/-- C2 (counterexample): with prior Notified-Set {"B-9"}, fetched list
[A-1], work hours, and a raising Telegram post, the cycle performs no
write at all and the Notified-Set is not the intersection with the
current keys — the prune-and-persist of step 5 did not happen. -/
theorem send_failure_skips_prune_persist :
    (JiraMonitor.check {"B-9"} (.ok [⟨"A-1", none⟩]) 12 false).writes = [] ∧
    (JiraMonitor.check {"B-9"} (.ok [⟨"A-1", none⟩]) 12 false).notified
      ≠ ({"B-9"} : Finset String) ∩ {"A-1"} := by
  decide

/-- C2 (amended): when there is at least one new issue and the Telegram
post raises during work hours, the exception aborts the cycle before
step 5: the in-memory Notified-Set is exactly the prior one and nothing
is persisted during the cycle. -/
theorem send_failure_aborts_cycle (prior : Finset String)
    (issues : List Issue) (hour : Nat)
    (hnew : issues.filter (fun i => decide (i.key ∉ prior)) ≠ [])
    (hhour : 8 ≤ hour ∧ hour < 20) :
    (JiraMonitor.check prior (.ok issues) hour false).notified = prior ∧
    (JiraMonitor.check prior (.ok issues) hour false).writes = [] := by
  have h : issues ≠ [] := by
    intro he
    rw [he] at hnew
    simp at hnew
  have hsend : TelegramNotifier.send
      (issues.filter (fun i => decide (i.key ∉ prior))) hour false
      = SendResult.failed := by
    simp only [TelegramNotifier.send, is_work_hours, if_neg hnew,
      decide_eq_true_eq]
    rw [if_neg, if_neg]
    · simp
    · simp [hhour.1, hhour.2]
  simp only [JiraMonitor.check]
  rw [if_neg h]
  simp only [if_neg hnew]
  rw [hsend]
  exact ⟨rfl, rfl⟩

/-- C2 witness: concrete instance of the amended claim. -/
theorem send_failure_aborts_cycle_witness :
    (([⟨"A-1", none⟩] : List Issue).filter
        (fun i => decide (i.key ∉ (∅ : Finset String))) ≠ []) ∧
    (8 ≤ 12 ∧ 12 < 20) ∧
    ((JiraMonitor.check ∅ (.ok [⟨"A-1", none⟩]) 12 false).notified = ∅ ∧
     (JiraMonitor.check ∅ (.ok [⟨"A-1", none⟩]) 12 false).writes = []) :=
  ⟨by decide, by decide,
   send_failure_aborts_cycle ∅ [⟨"A-1", none⟩] 12 (by decide) (by decide)⟩

/-- C3 (counterexample): with empty prior state, fetched list [A-1], work
hours and a raising Telegram post, the new key "A-1" is passed to the
notifier in the first cycle but is NOT in the Notified-Set afterwards
(the exception skips the add), and a second cycle on the same list —
the key continuously present, this time with a working transport —
passes it to the notifier again: two notify batches, refuting the
unconditional exactly-once claim. -/
theorem new_key_rebatched_on_send_failure :
    (∃ i ∈ ((JiraMonitor.check ∅
        (.ok [⟨"A-1", none⟩]) 12 false).batch).getD [], i.key = "A-1") ∧
    "A-1" ∉ (JiraMonitor.check ∅ (.ok [⟨"A-1", none⟩]) 12 false).notified ∧
    (∃ i ∈ ((JiraMonitor.check
        ((JiraMonitor.check ∅ (.ok [⟨"A-1", none⟩]) 12 false).notified)
        (.ok [⟨"A-1", none⟩]) 12 true).batch).getD [], i.key = "A-1") := by
  decide

/-- C3 (amended): across exception-free cycles (the Telegram post
succeeds whenever attempted), a key that appears in the fetched list and
is not yet notified is put in that cycle's notify batch, lands in the
Notified-Set after the cycle, and — as long as it keeps appearing in
every later fetched list — never appears in any later batch: it is
notified exactly once. -/
theorem new_key_exactly_one_batch (prior : Finset String) (k : String)
    (c0 : Nat × List Issue) (rest : List (Nat × List Issue))
    (hk : k ∈ c0.2.map Issue.key) (hnew : k ∉ prior)
    (hrest : ∀ c ∈ rest, k ∈ c.2.map Issue.key) :
    (∃ i ∈ batchOf prior c0, i.key = k) ∧
    k ∈ runCycle prior c0 ∧
    ∀ b ∈ cycleBatches (runCycle prior c0) rest, ∀ i ∈ b, i.key ≠ k := by
  have hne : c0.2 ≠ [] := by
    intro he
    rw [he] at hk
    simp at hk
  have hmem : k ∈ runCycle prior c0 := by
    rw [runCycle_eq_keys prior c0 hne]
    exact List.mem_toFinset.mpr hk
  refine ⟨?_, hmem, cycleBatches_avoid k rest (runCycle prior c0) hmem hrest⟩
  rw [List.mem_map] at hk
  obtain ⟨i, hi, hik⟩ := hk
  refine ⟨i, ?_, hik⟩
  rw [batchOf, check_batch_getD, List.mem_filter]
  exact ⟨hi, by simp [hik, hnew]⟩

/-- C3 witness: the spec scenario — prior {"A-1"}, fetch [A-1, A-2], then
a later fetch [A-2]: A-2 is batched once, tracked, and never re-batched. -/
theorem new_key_exactly_one_batch_witness :
    ("A-2" ∈ ([⟨"A-1", none⟩, ⟨"A-2", none⟩] : List Issue).map Issue.key) ∧
    ("A-2" ∉ ({"A-1"} : Finset String)) ∧
    (∀ c ∈ [((12 : Nat), [(⟨"A-2", none⟩ : Issue)])], "A-2" ∈ c.2.map Issue.key) ∧
    ((∃ i ∈ batchOf {"A-1"} (12, [⟨"A-1", none⟩, ⟨"A-2", none⟩]), i.key = "A-2") ∧
     "A-2" ∈ runCycle {"A-1"} (12, [⟨"A-1", none⟩, ⟨"A-2", none⟩]) ∧
     ∀ b ∈ cycleBatches (runCycle {"A-1"} (12, [⟨"A-1", none⟩, ⟨"A-2", none⟩]))
         [(12, [⟨"A-2", none⟩])], ∀ i ∈ b, i.key ≠ "A-2") :=
  ⟨by decide, by decide, by decide,
   new_key_exactly_one_batch {"A-1"} "A-2" (12, [⟨"A-1", none⟩, ⟨"A-2", none⟩])
     [(12, [⟨"A-2", none⟩])] (by decide) (by decide) (by decide)⟩

/-- C4: no issue whose key is already in the prior Notified-Set is in the
notify batch of the cycle, whatever the hour or transport outcome. -/
theorem known_key_not_in_batch (prior : Finset String) (issues : List Issue)
    (hour : Nat) (httpOk : Bool) (k : String) (hk : k ∈ prior) :
    ∀ i ∈ ((JiraMonitor.check prior (.ok issues) hour httpOk).batch).getD [],
      i.key ≠ k := by
  intro i hi
  rw [check_batch_getD, List.mem_filter] at hi
  intro hik
  have h2 := hi.2
  rw [hik] at h2
  simp at h2
  exact h2 hk

/-- C4 witness: the spec scenario — prior {"A-1","A-2"}, fetch [A-2]:
A-2 is never in the batch. -/
theorem known_key_not_in_batch_witness :
    "A-2" ∈ ({"A-1", "A-2"} : Finset String) ∧
    ∀ i ∈ ((JiraMonitor.check {"A-1", "A-2"}
        (.ok [⟨"A-2", none⟩]) 12 true).batch).getD [],
      i.key ≠ "A-2" :=
  ⟨by decide,
   known_key_not_in_batch {"A-1", "A-2"} [⟨"A-2", none⟩] 12 true "A-2" (by decide)⟩

/-- C5: an empty fetched list clears the Notified-Set, persists exactly
the empty set, and invokes no notifier — for every prior value and
environment. -/
theorem empty_fetch_clears_state (prior : Finset String) (hour : Nat)
    (httpOk : Bool) :
    (JiraMonitor.check prior (.ok []) hour httpOk).notified = ∅ ∧
    (JiraMonitor.check prior (.ok []) hour httpOk).writes = [∅] ∧
    (JiraMonitor.check prior (.ok []) hour httpOk).batch = none :=
  ⟨rfl, rfl, rfl⟩

/-- C6: after an exception-free cycle on a non-empty fetched list the
Notified-Set equals exactly the current keys (whatever the hour — keys
are recorded even when the work-hours gate skipped actual delivery). -/
theorem check_ok_notified_eq_current (prior : Finset String)
    (issues : List Issue) (hour : Nat) (h : issues ≠ []) :
    (JiraMonitor.check prior (.ok issues) hour true).notified
      = (issues.map Issue.key).toFinset :=
  (check_ok_true_spec prior issues hour h).1

/-- C6 witness: at hour 3 (outside the gate) the fetched key is still
recorded. -/
theorem check_ok_notified_eq_current_witness :
    (([⟨"A-1", none⟩] : List Issue) ≠ []) ∧
    (JiraMonitor.check {"Z-9"} (.ok [⟨"A-1", none⟩]) 3 true).notified
      = (([⟨"A-1", none⟩] : List Issue).map Issue.key).toFinset :=
  ⟨by decide, check_ok_notified_eq_current {"Z-9"} [⟨"A-1", none⟩] 3 (by decide)⟩

/-- C7: running the cycle twice on the same fetched list with no
exceptions leaves the Notified-Set of the second cycle equal to that of
the first, and the second cycle invokes no notifier (empty batch). -/
theorem check_idempotent (prior : Finset String) (issues : List Issue)
    (h1 h2 : Nat) :
    (JiraMonitor.check
        ((JiraMonitor.check prior (.ok issues) h1 true).notified)
        (.ok issues) h2 true).notified
      = (JiraMonitor.check prior (.ok issues) h1 true).notified ∧
    (JiraMonitor.check
        ((JiraMonitor.check prior (.ok issues) h1 true).notified)
        (.ok issues) h2 true).batch = none := by
  by_cases h : issues = []
  · subst h
    exact ⟨rfl, rfl⟩
  · have hfst := (check_ok_true_spec prior issues h1 h).1
    have hall : ∀ i ∈ issues,
        i.key ∈ (JiraMonitor.check prior (.ok issues) h1 true).notified := by
      intro i hi
      rw [hfst]
      exact List.mem_toFinset.mpr (List.mem_map_of_mem Issue.key hi)
    obtain ⟨ha, hb⟩ := check_no_new _ issues h2 true h hall
    refine ⟨?_, hb⟩
    rw [ha, hfst]
    exact Finset.inter_self _

/-- C8: a raising fetch leaves the in-memory set untouched, writes
nothing, and invokes no notifier. -/
theorem fetch_failure_no_mutation (prior : Finset String) (hour : Nat)
    (httpOk : Bool) :
    (JiraMonitor.check prior .failed hour httpOk).notified = prior ∧
    (JiraMonitor.check prior .failed hour httpOk).writes = [] ∧
    (JiraMonitor.check prior .failed hour httpOk).batch = none :=
  ⟨rfl, rfl, rfl⟩

/-- C9: with a non-empty batch and the local hour outside [8, 20), the
notifier returns through the work-hours early return: no HTTP delivery
call and no exception. -/
theorem send_off_hours_skips (issues : List Issue) (hour : Nat)
    (httpOk : Bool) (hne : issues ≠ []) (hout : ¬(8 ≤ hour ∧ hour < 20)) :
    TelegramNotifier.send issues hour httpOk = SendResult.skippedOffHours := by
  simp [TelegramNotifier.send, hne, is_work_hours, hout]

/-- C9 witness: hour 21, non-empty batch, even with a broken transport:
the gate returns before any HTTP call. -/
theorem send_off_hours_skips_witness :
    (([⟨"A-1", none⟩] : List Issue) ≠ []) ∧ ¬(8 ≤ 21 ∧ 21 < 20) ∧
    TelegramNotifier.send [⟨"A-1", none⟩] 21 false = SendResult.skippedOffHours :=
  ⟨by decide, by decide,
   send_off_hours_skips [⟨"A-1", none⟩] 21 false (by decide) (by decide)⟩

/-- C10: a persisted set reads back equal to what was saved, and a
missing or unreadable state file loads as the empty set. -/
theorem state_save_load_roundtrip (s : Finset String) :
    load_state (.content (save_state s)) = s ∧
    load_state .missing = ∅ ∧
    load_state .unreadable = ∅ :=
  ⟨Finset.sort_toFinset _ s, rfl, rfl⟩
